import Mathlib

/-!
# LockFile on the simulated (mutex) backend

A shallow embedding of `source/core/StarLockFile_unix.cpp`.

The translation keeps the program state explicit:

* the module-level variable `lockMutex` and the state of the platform
  (mutex table, clock, record of service calls) form a `World`;
* a `LockFile` object is a record of its two members;
* every function takes the world (and the calling thread, where the platform
  service depends on it) and returns its outcome together with the new world.

The platform services (`sceKernelCreateMutex`, `sceKernelLockMutex`,
`sceKernelTryLockMutex`, `sceKernelUnlockMutex`, `sceKernelGetSystemTimeWide`,
`sceKernelDelayThread`, `unlink`, `close`) are not part of the repository; they
are modelled by a small deterministic kernel whose every call is appended to a
log, so that statements such as "no sleep" or "no unlink" can be read off it.
-/

namespace Star

/-! ## Platform model -/

/-- Kernel object identifier (`SceUID` is a C `int`). -/
abbrev SceUID := Int

/-- Identifier of the thread that executes a call. -/
abbrev ThreadId := Nat

/-- Failure conditions the platform services can report. -/
inductive KernelError where
  /-- no further kernel object can be created -/
  | outOfResources
  /-- the identifier names no mutex -/
  | unknownMutexId
  /-- try-lock on a mutex that another thread holds (the "already held" outcome) -/
  | failedToOwn
  /-- the owner locks a non-recursive mutex again -/
  | recursiveLock
  /-- unlock by a thread that does not hold the mutex -/
  | notOwned
  deriving DecidableEq, Repr

/-- Status code of a failure. The platform headers that fix the numeric values are
not part of the repository and the code under study reads only the sign of a status
(`ret < 0`) or whether it is zero (`ret == 0`), so every condition is given a
distinct negative representative. -/
def KernelError.code : KernelError → Int
  | .unknownMutexId => -2
  | .failedToOwn => -3
  | .recursiveLock => -4
  | .notOwned => -5
  | .outOfResources => -6

/-- Attribute bit passed by `initLockMutex`: the owner may lock again. -/
def SCE_KERNEL_MUTEX_ATTR_RECURSIVE : Nat := 2

/-- One kernel mutex. -/
structure KMutex where
  uid : SceUID
  name : String
  recursive : Bool
  owner : Option ThreadId
  count : Nat
  deriving DecidableEq, Repr

/-- Service calls, as recorded in the kernel log. -/
inductive Call where
  | createMutex (name : String) (attr : Nat) (initCount : Nat)
  | lockMutex (uid : SceUID) (lockCount : Nat)
  | tryLockMutex (uid : SceUID) (lockCount : Nat)
  | unlockMutex (uid : SceUID) (unlockCount : Nat)
  | getSystemTimeWide
  | delayThread (usec : Nat)
  | unlink (path : String)
  | close (fd : Int)
  deriving DecidableEq, Repr

/-- State of the platform. `clock` is the system time in microseconds, `tick` the
time every service call takes (it may be zero), `mutexLimit` the number of mutexes
the kernel is able to hold. -/
structure Kernel where
  mutexes : List KMutex
  nextUid : Nat
  mutexLimit : Nat
  clock : Nat
  tick : Nat
  log : List Call
  deriving DecidableEq, Repr

/-- Entering a service: the call is logged and takes `tick` microseconds. -/
def Kernel.enter (k : Kernel) (c : Call) : Kernel :=
  { k with clock := k.clock + k.tick, log := k.log ++ [c] }

/-- The mutex an identifier names, if any. -/
def Kernel.find (k : Kernel) (uid : SceUID) : Option KMutex :=
  k.mutexes.find? (fun m => m.uid == uid)

/-- Replace the mutex that has the identifier of `m` by `m`. -/
def Kernel.store (k : Kernel) (m : KMutex) : Kernel :=
  { k with mutexes := k.mutexes.map (fun x => if x.uid == m.uid then m else x) }

/-- A thread tries to take `n` levels of a mutex without waiting. -/
def KMutex.acquire (m : KMutex) (t : ThreadId) (n : Nat) : Except KernelError KMutex :=
  match m.owner with
  | none => .ok { m with owner := some t, count := n }
  | some o =>
    if o = t then
      if m.recursive then .ok { m with count := m.count + n } else .error .recursiveLock
    else .error .failedToOwn

/-- A thread gives back `n` levels of a mutex. -/
def KMutex.release (m : KMutex) (t : ThreadId) (n : Nat) : Except KernelError KMutex :=
  match m.owner with
  | none => .error .notOwned
  | some o =>
    if o = t ∧ n ≤ m.count then
      if m.count - n = 0 then .ok { m with owner := none, count := 0 }
      else .ok { m with count := m.count - n }
    else .error .notOwned

/-- Creation of a mutex: a fresh identifier on success, a negative status when the
kernel cannot hold another mutex. -/
def sceKernelCreateMutex (name : String) (attr : Nat) (initCount : Nat) (t : ThreadId)
    (k : Kernel) : Int × Kernel :=
  let k1 := k.enter (.createMutex name attr initCount)
  if k1.mutexes.length < k1.mutexLimit then
    let m : KMutex :=
      { uid := (k1.nextUid : Int), name := name, recursive := attr / 2 % 2 == 1,
        owner := if initCount = 0 then none else some t, count := initCount }
    ((k1.nextUid : Int), { k1 with mutexes := k1.mutexes ++ [m], nextUid := k1.nextUid + 1 })
  else (KernelError.outOfResources.code, k1)

/-- Non-blocking lock: `0` on success, a negative status otherwise. -/
def sceKernelTryLockMutex (uid : SceUID) (lockCount : Nat) (t : ThreadId) (k : Kernel) :
    Int × Kernel :=
  let k1 := k.enter (.tryLockMutex uid lockCount)
  match k1.find uid with
  | none => (KernelError.unknownMutexId.code, k1)
  | some m =>
    match m.acquire t lockCount with
    | .ok m1 => (0, k1.store m1)
    | .error e => (e.code, k1)

/-- Blocking lock without timeout (`pTimeout = NULL`). The result `none` stands for
a call that does not return: the mutex is held by another thread, and nothing in a
sequential run releases it. -/
def sceKernelLockMutex (uid : SceUID) (lockCount : Nat) (t : ThreadId) (k : Kernel) :
    Option Int × Kernel :=
  let k1 := k.enter (.lockMutex uid lockCount)
  match k1.find uid with
  | none => (some KernelError.unknownMutexId.code, k1)
  | some m =>
    match m.acquire t lockCount with
    | .ok m1 => (some 0, k1.store m1)
    | .error .failedToOwn => (none, k1)
    | .error e => (some e.code, k1)

/-- Unlock: `0` on success, a negative status otherwise. -/
def sceKernelUnlockMutex (uid : SceUID) (unlockCount : Nat) (t : ThreadId) (k : Kernel) :
    Int × Kernel :=
  let k1 := k.enter (.unlockMutex uid unlockCount)
  match k1.find uid with
  | none => (KernelError.unknownMutexId.code, k1)
  | some m =>
    match m.release t unlockCount with
    | .ok m1 => (0, k1.store m1)
    | .error e => (e.code, k1)

/-- System time in microseconds, as an unsigned 64-bit value. -/
def sceKernelGetSystemTimeWide (k : Kernel) : Nat × Kernel :=
  (k.clock % 2 ^ 64, k.enter .getSystemTimeWide)

/-- Suspend the calling thread for `usec` microseconds. -/
def sceKernelDelayThread (usec : Nat) (k : Kernel) : Kernel :=
  let k1 := k.enter (.delayThread usec)
  { k1 with clock := k1.clock + usec }

/-- The libc call `unlink`; its status is ignored by the caller. -/
def unlink (path : String) (k : Kernel) : Kernel :=
  k.enter (.unlink path)

/-- The libc call `close`; its status is ignored by the caller. -/
def close (fd : Int) (k : Kernel) : Kernel :=
  k.enter (.close fd)

/-! ## Program state -/

/-- The module-level variable `lockMutex` together with the platform. -/
structure World where
  lockMutex : SceUID
  kernel : Kernel
  deriving DecidableEq, Repr

/-- State at program start: `SceUID lockMutex = -1;`. -/
def World.start (k : Kernel) : World :=
  { lockMutex := -1, kernel := k }

/-- A `StarException` whose message is `what` followed by `std::to_string(code)`. -/
structure StarException where
  what : String
  code : Int
  deriving DecidableEq, Repr

/-- How a call ends. -/
inductive Outcome (α : Type) where
  /-- normal return -/
  | returned (a : α)
  /-- an exception leaves the function -/
  | threw (e : StarException)
  /-- the calling thread stays suspended inside `sceKernelLockMutex` -/
  | blocked
  /-- the poll loop was still running when the iteration budget of the model ended -/
  | unfinished
  deriving DecidableEq, Repr

/-- The members of a `LockFile`. `m_handle` is the shared pointer that, when set,
points to a file descriptor. -/
structure LockFile where
  m_filename : String
  m_handle : Option Int
  deriving DecidableEq, Repr

/-! ## The functions of `StarLockFile_unix.cpp` -/

/-- Source lines 25 to 30. -/
def initLockMutex (t : ThreadId) (w : World) : Outcome Unit × World :=
  let r := sceKernelCreateMutex "LockMutex" SCE_KERNEL_MUTEX_ATTR_RECURSIVE 0 t w.kernel
  let w1 : World := { lockMutex := r.1, kernel := r.2 }
  if w1.lockMutex < 0 then
    (.threw ⟨"Failed to create mutex: ", w1.lockMutex⟩, w1)
  else (.returned (), w1)

/-- Source lines 33 to 38. -/
def lockFileMutex (t : ThreadId) (w : World) : Outcome Unit × World :=
  match sceKernelLockMutex w.lockMutex 1 t w.kernel with
  | (none, k) => (.blocked, { w with kernel := k })
  | (some ret, k) =>
    if ret < 0 then (.threw ⟨"Failed to lock mutex: ", ret⟩, { w with kernel := k })
    else (.returned (), { w with kernel := k })

/-- Source lines 40 to 45. No function of the file calls it. -/
def unlockFileMutex (t : ThreadId) (w : World) : Outcome Unit × World :=
  match sceKernelUnlockMutex w.lockMutex 1 t w.kernel with
  | (ret, k) =>
    if ret < 0 then (.threw ⟨"Failed to unlock mutex: ", ret⟩, { w with kernel := k })
    else (.returned (), { w with kernel := k })

/-- Constructor `LockFile(String const&)`, source lines 57 to 59. When
`initLockMutex` throws no object comes into existence. -/
def LockFile.construct (filename : String) (t : ThreadId) (w : World) :
    Outcome LockFile × World :=
  match initLockMutex t w with
  | (.returned _, w1) => (.returned { m_filename := filename, m_handle := none }, w1)
  | (.threw e, w1) => (.threw e, w1)
  | (.blocked, w1) => (.blocked, w1)
  | (.unfinished, w1) => (.unfinished, w1)

/-- Move assignment, source lines 69 to 74: the result is the pair of the assigned-to
object and the moved-from object. A moved-from shared pointer is null; a moved-from
string is left empty. -/
def LockFile.moveAssign (_self : LockFile) (lockFile : LockFile) : LockFile × LockFile :=
  ({ m_filename := lockFile.m_filename, m_handle := lockFile.m_handle },
   { m_filename := "", m_handle := none })

/-- Move assignment of an object to itself (`a = std::move(a)`): the two statements of
source lines 70 and 71 with both operands the same object, there being no
self-assignment test. The string move assignment leaves the string cleared, the shared
pointer moved onto itself keeps what it points to. -/
def LockFile.moveAssignSelf (self : LockFile) : LockFile :=
  { m_filename := "", m_handle := self.m_handle }

/-- Move constructor, source lines 61 to 63: default-initialised members, then
`operator=`. -/
def LockFile.moveConstruct (lockFile : LockFile) : LockFile × LockFile :=
  LockFile.moveAssign { m_filename := "", m_handle := none } lockFile

/-- Observer `isLocked`, source lines 156 to 158. -/
def LockFile.isLocked (self : LockFile) : Bool :=
  self.m_handle.isSome

/-- Member `unlock`, source lines 147 to 154. -/
def LockFile.unlock (self : LockFile) (w : World) : Outcome Unit × LockFile × World :=
  match self.m_handle with
  | some fd =>
    (.returned (), { self with m_handle := none },
      { w with kernel := close fd (unlink self.m_filename w.kernel) })
  | none => (.returned (), self, w)

/-- Destructor, source lines 65 to 67. -/
def LockFile.destroy (self : LockFile) (w : World) : Outcome Unit × LockFile × World :=
  self.unlock w

/-- The loop of source lines 90 to 102; `fuel` bounds the number of iterations the
model follows. The subtraction is the unsigned 64-bit one, and `timeout` (positive
here) is compared as an unsigned value. -/
def pollLock (timeout : Int) (startTime : Nat) (t : ThreadId) :
    Nat → World → Outcome Bool × World
  | 0, w => (.unfinished, w)
  | fuel + 1, w =>
    let r := sceKernelTryLockMutex w.lockMutex 1 t w.kernel
    if r.1 = 0 then (.returned true, { w with kernel := r.2 })
    else
      let c := sceKernelGetSystemTimeWide r.2
      if (c.1 + 2 ^ 64 - startTime) % 2 ^ 64 > timeout.toNat then
        (.returned false, { w with kernel := c.2 })
      else
        pollLock timeout startTime t fuel { w with kernel := sceKernelDelayThread 1000000 c.2 }

/-- Member `lock`, source lines 77 to 103. The object is returned with the result:
no statement of the function assigns to a member. -/
def LockFile.lock (self : LockFile) (timeout : Int) (t : ThreadId) (fuel : Nat) (w : World) :
    Outcome Bool × LockFile × World :=
  if timeout < 0 then
    match lockFileMutex t w with
    | (.returned _, w1) => (.returned true, self, w1)
    | (.threw e, w1) => (.threw e, self, w1)
    | (.blocked, w1) => (.blocked, self, w1)
    | (.unfinished, w1) => (.unfinished, self, w1)
  else if timeout = 0 then
    let r := sceKernelTryLockMutex w.lockMutex 1 t w.kernel
    if r.1 = 0 then (.returned true, self, { w with kernel := r.2 })
    else (.returned false, self, { w with kernel := r.2 })
  else
    let s := sceKernelGetSystemTimeWide w.kernel
    let p := pollLock timeout s.1 t fuel { w with kernel := s.2 }
    (p.1, self, p.2)

/-- Factory `acquireLock`, source lines 50 to 55. The local object is moved into
the result on success and destroyed when the function is left. -/
def LockFile.acquireLock (filename : String) (lockTimeout : Int) (t : ThreadId) (fuel : Nat)
    (w : World) : Outcome (Option LockFile) × World :=
  match LockFile.construct filename t w with
  | (.returned lock, w1) =>
    match lock.lock lockTimeout t fuel w1 with
    | (.returned true, lock1, w2) =>
      let mv := LockFile.moveConstruct lock1
      (.returned (some mv.1), (mv.2.destroy w2).2.2)
    | (.returned false, lock1, w2) => (.returned none, (lock1.destroy w2).2.2)
    | (.threw e, lock1, w2) => (.threw e, (lock1.destroy w2).2.2)
    | (.blocked, _, w2) => (.blocked, w2)
    | (.unfinished, _, w2) => (.unfinished, w2)
  | (.threw e, w1) => (.threw e, w1)
  | (.blocked, w1) => (.blocked, w1)
  | (.unfinished, w1) => (.unfinished, w1)

/-! ## Objects of a program and the operations applied to them -/

/-- The live `LockFile` objects of a program, addressed by position, and the world. -/
structure System where
  world : World
  objs : List LockFile
  deriving DecidableEq, Repr

/-- What a program can do with `LockFile` objects. Objects are named by their
position in `System.objs`; an operation on a position that holds no object does
nothing. -/
inductive Op where
  | construct (filename : String) (t : ThreadId)
  | acquireLock (filename : String) (lockTimeout : Int) (t : ThreadId) (fuel : Nat)
  | lock (i : Nat) (timeout : Int) (t : ThreadId) (fuel : Nat)
  | unlock (i : Nat)
  | moveAssign (dst src : Nat)
  | moveConstruct (src : Nat)
  | destroy (i : Nat)
  deriving DecidableEq, Repr

/-- One operation. A constructor that throws adds no object; a call that throws,
stays blocked or is still polling leaves the objects as the call had them. -/
def System.step (s : System) : Op → System
  | .construct filename t =>
    match LockFile.construct filename t s.world with
    | (.returned h, w) => { world := w, objs := s.objs ++ [h] }
    | (_, w) => { world := w, objs := s.objs }
  | .acquireLock filename lockTimeout t fuel =>
    match LockFile.acquireLock filename lockTimeout t fuel s.world with
    | (.returned (some h), w) => { world := w, objs := s.objs ++ [h] }
    | (_, w) => { world := w, objs := s.objs }
  | .lock i timeout t fuel =>
    match s.objs[i]? with
    | some h =>
      { world := (h.lock timeout t fuel s.world).2.2,
        objs := s.objs.set i (h.lock timeout t fuel s.world).2.1 }
    | none => s
  | .unlock i =>
    match s.objs[i]? with
    | some h => { world := (h.unlock s.world).2.2, objs := s.objs.set i (h.unlock s.world).2.1 }
    | none => s
  | .moveAssign dst src =>
    match s.objs[dst]?, s.objs[src]? with
    | some d, some h =>
      if dst = src then { world := s.world, objs := s.objs.set dst d.moveAssignSelf }
      else
        { world := s.world,
          objs := (s.objs.set dst (d.moveAssign h).1).set src (d.moveAssign h).2 }
    | _, _ => s
  | .moveConstruct src =>
    match s.objs[src]? with
    | some h =>
      { world := s.world,
        objs := s.objs.set src (LockFile.moveConstruct h).2 ++ [(LockFile.moveConstruct h).1] }
    | none => s
  | .destroy i =>
    match s.objs[i]? with
    | some h => { world := (h.destroy s.world).2.2, objs := s.objs.eraseIdx i }
    | none => s

/-- A program: operations applied one after the other. -/
def System.run (s : System) (ops : List Op) : System :=
  ops.foldl System.step s

/-- A program starts without objects and with `lockMutex = -1`. -/
def System.start (k : Kernel) : System :=
  { world := World.start k, objs := [] }

/-- Number of live objects bound to the name `R` that report `isLocked()`. -/
def System.lockedOn (s : System) (R : String) : Nat :=
  (s.objs.filter (fun h => h.m_filename == R && h.isLocked)).length

/-- Every live object has a null `m_handle`. -/
def System.allNull (s : System) : Prop :=
  ∀ h ∈ s.objs, h.m_handle = none

/-- The mutex that `lockMutex` names exists and is owned by thread `t`. -/
def World.heldBy (w : World) (t : ThreadId) : Prop :=
  ∃ m, w.kernel.find w.lockMutex = some m ∧ m.owner = some t

/-! ## Concrete worlds used by the evaluations below -/

/-- A platform with room for eight mutexes and an ideal clock (calls take no time). -/
def bootKernel : Kernel :=
  { mutexes := [], nextUid := 1, mutexLimit := 8, clock := 0, tick := 0, log := [] }

/-- A platform that can hold a single mutex. -/
def tightKernel : Kernel :=
  { mutexes := [], nextUid := 1, mutexLimit := 1, clock := 0, tick := 0, log := [] }

/-- A platform on which every call takes one microsecond. -/
def tickingKernel : Kernel :=
  { mutexes := [], nextUid := 1, mutexLimit := 8, clock := 0, tick := 1, log := [] }

/-- A platform with no room for a mutex. -/
def fullKernel : Kernel :=
  { mutexes := [], nextUid := 1, mutexLimit := 0, clock := 0, tick := 0, log := [] }

/-- An object that owns file descriptor 3. -/
def heldLock : LockFile :=
  { m_filename := "save.lock", m_handle := some 3 }

/-- The object a successful construction for the name "save.lock" yields. -/
def saveLock : LockFile :=
  { m_filename := "save.lock", m_handle := none }

/-- World after `LockFile A("save.lock")` on thread 1. -/
def worldA : World :=
  (LockFile.construct "save.lock" 1 (World.start bootKernel)).2

/-- World after `LockFile A("save.lock")` and then `LockFile B("save.lock")`; the
mutex is created unowned, so the constructing threads leave no trace. -/
def worldAB : World :=
  (LockFile.construct "save.lock" 2 worldA).2

/-- World after A and B were constructed and `A.lock(-1)` returned on thread 1. -/
def worldABLocked : World :=
  (saveLock.lock (-1) 1 0 worldAB).2.2

/-- The same as `worldABLocked` on the platform whose calls take a microsecond. -/
def worldTicking : World :=
  (saveLock.lock (-1) 1 0
    (LockFile.construct "save.lock" 2
      (LockFile.construct "save.lock" 1 (World.start tickingKernel)).2).2).2.2

/-- World after A was constructed on the platform with room for one mutex and the
construction of B failed. -/
def worldTight : World :=
  (LockFile.construct "save.lock" 2
    (LockFile.construct "save.lock" 1 (World.start tightKernel)).2).2

/-- World after `LockFile A("save.lock")` and `A.lock(-1)` on thread 1. -/
def worldALocked : World :=
  (saveLock.lock (-1) 1 0 worldA).2.2

/-- World after A was constructed and locked on thread 1 and B was then constructed
on thread 2. -/
def worldALockedB : World :=
  (LockFile.construct "save.lock" 2 worldALocked).2

/-- World after a round of the poll loop in which the try-lock failed and the budget
was not yet exceeded: try-lock, clock reading, one sleep. -/
def afterRound (w : World) : World :=
  { w with
    kernel := sceKernelDelayThread 1000000
      ((w.kernel.enter (.tryLockMutex w.lockMutex 1)).enter .getSystemTimeWide) }

/-- Number of try-lock calls in a log. -/
def tryLockCalls (log : List Call) : Nat :=
  (log.filter (fun c => match c with
    | .tryLockMutex _ _ => true
    | _ => false)).length

/-- Number of sleeps in a log. -/
def delayCalls (log : List Call) : Nat :=
  (log.filter (fun c => match c with
    | .delayThread _ => true
    | _ => false)).length

/-- Number of unlock calls on a mutex in a log. -/
def unlockMutexCalls (log : List Call) : Nat :=
  (log.filter (fun c => match c with
    | .unlockMutex _ _ => true
    | _ => false)).length


/-! ## General facts about the embedded functions -/

/-- No path through `lock` assigns to a member of the object. -/
theorem lock_keeps_object (self : LockFile) (timeout : Int) (t : ThreadId) (fuel : Nat)
    (w : World) : (self.lock timeout t fuel w).2.1 = self := by
  unfold LockFile.lock
  split
  · split <;> rfl
  · split
    · dsimp only
      split <;> rfl
    · rfl

/-- A freshly constructed object owns nothing. -/
theorem construct_owns_nothing {filename : String} {t : ThreadId} {w w1 : World}
    {h : LockFile} (hc : LockFile.construct filename t w = (.returned h, w1)) :
    h.m_handle = none := by
  unfold LockFile.construct at hc
  split at hc <;> simp at hc
  rw [← hc.1]

/-- The object `acquireLock` hands out owns nothing. -/
theorem acquireLock_owns_nothing {filename : String} {lockTimeout : Int} {t : ThreadId}
    {fuel : Nat} {w w1 : World} {h : LockFile}
    (ha : LockFile.acquireLock filename lockTimeout t fuel w = (.returned (some h), w1)) :
    h.m_handle = none := by
  unfold LockFile.acquireLock at ha
  split at ha
  · rename_i lock w0 hc
    have hl := construct_owns_nothing hc
    split at ha
    · rename_i lock1 w2 hk
      have h1 : lock1 = lock := by
        have := lock_keeps_object lock lockTimeout t fuel w0
        rw [hk] at this
        exact this
      simp at ha
      rw [← ha.1, h1]
      simp [LockFile.moveConstruct, LockFile.moveAssign, hl]
    all_goals simp at ha
  all_goals simp at ha

/-- After `unlock` the object owns nothing. -/
theorem unlock_owns_nothing (self : LockFile) (w : World) :
    (self.unlock w).2.1.m_handle = none := by
  unfold LockFile.unlock
  split
  · rfl
  · assumption

/-- Every operation keeps all `m_handle` members null. -/
theorem step_allNull (s : System) (op : Op) (hs : s.allNull) : (s.step op).allNull := by
  unfold System.allNull at *
  cases op with
  | construct filename t =>
    simp only [System.step]
    split
    · rename_i h w hc
      intro x hx
      rcases List.mem_append.mp hx with hx | hx
      · exact hs x hx
      · simp at hx
        rw [hx]
        exact construct_owns_nothing hc
    · exact hs
  | acquireLock filename lockTimeout t fuel =>
    simp only [System.step]
    split
    · rename_i h w hc
      intro x hx
      rcases List.mem_append.mp hx with hx | hx
      · exact hs x hx
      · simp at hx
        rw [hx]
        exact acquireLock_owns_nothing hc
    · exact hs
  | lock i timeout t fuel =>
    simp only [System.step]
    split
    · rename_i h hi
      intro x hx
      rcases List.mem_or_eq_of_mem_set hx with hx | hx
      · exact hs x hx
      · rw [hx, lock_keeps_object]
        exact hs h (List.getElem?_mem hi)
    · exact hs
  | unlock i =>
    simp only [System.step]
    split
    · intro x hx
      rcases List.mem_or_eq_of_mem_set hx with hx | hx
      · exact hs x hx
      · rw [hx]
        exact unlock_owns_nothing _ _
    · exact hs
  | moveAssign dst src =>
    simp only [System.step]
    split
    · rename_i d h hd hh
      split
      · intro x hx
        rcases List.mem_or_eq_of_mem_set hx with hx | hx
        · exact hs x hx
        · rw [hx]
          exact hs d (List.getElem?_mem hd)
      · intro x hx
        rcases List.mem_or_eq_of_mem_set hx with hx | hx
        · rcases List.mem_or_eq_of_mem_set hx with hx | hx
          · exact hs x hx
          · rw [hx]
            exact hs h (List.getElem?_mem hh)
        · rw [hx]
          rfl
    · exact hs
  | moveConstruct src =>
    simp only [System.step]
    split
    · rename_i h hh
      intro x hx
      rcases List.mem_append.mp hx with hx | hx
      · rcases List.mem_or_eq_of_mem_set hx with hx | hx
        · exact hs x hx
        · rw [hx]
          rfl
      · simp at hx
        rw [hx]
        exact hs h (List.getElem?_mem hh)
    · exact hs
  | destroy i =>
    simp only [System.step]
    split
    · intro x hx
      exact hs x (List.mem_of_mem_eraseIdx hx)
    · exact hs

/-- A program keeps all `m_handle` members null. -/
theorem run_allNull (ops : List Op) (s : System) (hs : s.allNull) : (s.run ops).allNull := by
  induction ops generalizing s with
  | nil => exact hs
  | cons op ops ih => exact ih (s.step op) (step_allNull s op hs)

/-- With all `m_handle` members null no object reports `isLocked()`. -/
theorem lockedOn_of_allNull (s : System) (R : String) (hs : s.allNull) : s.lockedOn R = 0 := by
  unfold System.lockedOn
  rw [List.length_eq_zero, List.filter_eq_nil_iff]
  intro h hh
  simp [LockFile.isLocked, hs h hh]


/-- Entering a service does not touch the mutex table. -/
theorem find_enter (k : Kernel) (c : Call) (uid : SceUID) : (k.enter c).find uid = k.find uid :=
  rfl

/-- A try-lock on a mutex that another thread holds reports `failedToOwn` and changes
nothing but the log and the clock. -/
theorem tryLock_held_by_other (uid : SceUID) (n : Nat) (t : ThreadId) (k : Kernel) (m : KMutex)
    (o : ThreadId) (hm : k.find uid = some m) (ho : m.owner = some o) (hne : o ≠ t) :
    sceKernelTryLockMutex uid n t k =
      (KernelError.failedToOwn.code, k.enter (.tryLockMutex uid n)) := by
  unfold sceKernelTryLockMutex
  simp only [find_enter, hm, KMutex.acquire, ho, if_neg hne]

/-- Counting try-lock calls in a log with one more entry. -/
theorem tryLockCalls_append (l : List Call) (c : Call) :
    tryLockCalls (l ++ [c]) = tryLockCalls l + tryLockCalls [c] := by
  simp [tryLockCalls, List.filter_append]

/-- Counting sleeps in a log with one more entry. -/
theorem delayCalls_append (l : List Call) (c : Call) :
    delayCalls (l ++ [c]) = delayCalls l + delayCalls [c] := by
  simp [delayCalls, List.filter_append]

/-- A creation request adds exactly one entry to the call record. -/
theorem create_log (name : String) (attr initCount : Nat) (t : ThreadId) (k : Kernel) :
    (sceKernelCreateMutex name attr initCount t k).2.log =
      k.log ++ [.createMutex name attr initCount] := by
  unfold sceKernelCreateMutex
  dsimp only
  split <;> rfl

/-- Whatever the platform answers, `lock(0)` returns a boolean: it never throws. -/
theorem lock_zero_returns (self : LockFile) (t : ThreadId) (fuel : Nat) (w : World) :
    (self.lock 0 t fuel w).1 = .returned true ∨ (self.lock 0 t fuel w).1 = .returned false := by
  unfold LockFile.lock
  simp only [lt_irrefl, if_false, if_true]
  split
  · exact Or.inl rfl
  · exact Or.inr rfl

/-- Every construction stores the result of a new creation request in `lockMutex`. -/
theorem construct_overwrites_lockMutex (filename : String) (t : ThreadId) (w : World) :
    (LockFile.construct filename t w).2.lockMutex =
      (sceKernelCreateMutex "LockMutex" SCE_KERNEL_MUTEX_ATTR_RECURSIVE 0 t w.kernel).1 := by
  have hw : (LockFile.construct filename t w).2 = (initLockMutex t w).2 := by
    unfold LockFile.construct
    split <;> simp_all
  rw [hw]
  unfold initLockMutex
  dsimp only
  split <;> rfl

/-- Sleeping does not touch the mutex table. -/
theorem find_delay (k : Kernel) (usec : Nat) (uid : SceUID) :
    (sceKernelDelayThread usec k).find uid = k.find uid :=
  rfl

/-- Reading the clock right after another service call. -/
theorem getSystemTimeWide_enter (k : Kernel) (c : Call) :
    sceKernelGetSystemTimeWide (k.enter c) =
      ((k.clock + k.tick) % 2 ^ 64, (k.enter c).enter .getSystemTimeWide) :=
  rfl

/-- One round of the poll loop while another thread holds the mutex: the elapsed
test decides between returning false and sleeping for another round. -/
theorem pollLock_held_round (T : Int) (start : Nat) (t : ThreadId) (fuel : Nat) (w : World)
    (m : KMutex) (o : ThreadId) (hm : w.kernel.find w.lockMutex = some m)
    (ho : m.owner = some o) (hne : o ≠ t) :
    pollLock T start t (fuel + 1) w =
      if ((w.kernel.clock + w.kernel.tick) % 2 ^ 64 + 2 ^ 64 - start) % 2 ^ 64 > T.toNat then
        (.returned false,
          { w with
            kernel := (w.kernel.enter (.tryLockMutex w.lockMutex 1)).enter .getSystemTimeWide })
      else pollLock T start t fuel (afterRound w) := by
  rw [pollLock]
  dsimp only
  rw [tryLock_held_by_other w.lockMutex 1 t w.kernel m o hm ho hne]
  have hcode : ¬ KernelError.failedToOwn.code = 0 := by decide
  dsimp only
  rw [if_neg hcode, getSystemTimeWide_enter]
  dsimp only
  unfold afterRound
  exact rfl

/-- A round of the poll loop on a held mutex that finds the budget not yet exceeded
sleeps and polls again. -/
theorem pollLock_held_sleeps (T : Int) (start : Nat) (t : ThreadId) (fuel : Nat) (w : World)
    (m : KMutex) (o : ThreadId) (hm : w.kernel.find w.lockMutex = some m)
    (ho : m.owner = some o) (hne : o ≠ t)
    (hel : ((w.kernel.clock + w.kernel.tick) % 2 ^ 64 + 2 ^ 64 - start) % 2 ^ 64 ≤ T.toNat) :
    pollLock T start t (fuel + 1) w = pollLock T start t fuel (afterRound w) := by
  rw [pollLock_held_round T start t fuel w m o hm ho hne, if_neg (Nat.not_lt.mpr hel)]

/-- A round of the poll loop on a held mutex that finds the budget exceeded returns
false. -/
theorem pollLock_held_gives_up (T : Int) (start : Nat) (t : ThreadId) (fuel : Nat) (w : World)
    (m : KMutex) (o : ThreadId) (hm : w.kernel.find w.lockMutex = some m)
    (ho : m.owner = some o) (hne : o ≠ t)
    (hel : ((w.kernel.clock + w.kernel.tick) % 2 ^ 64 + 2 ^ 64 - start) % 2 ^ 64 > T.toNat) :
    pollLock T start t (fuel + 1) w =
      (.returned false,
        { w with
          kernel := (w.kernel.enter (.tryLockMutex w.lockMutex 1)).enter .getSystemTimeWide }) := by
  rw [pollLock_held_round T start t fuel w m o hm ho hne, if_pos hel]

/-- Clock and tick after a round of the poll loop that sleeps. -/
theorem afterRound_clock (w : World) :
    (afterRound w).kernel.clock =
        w.kernel.clock + w.kernel.tick + w.kernel.tick + w.kernel.tick + 1000000 ∧
      (afterRound w).kernel.tick = w.kernel.tick :=
  ⟨rfl, rfl⟩

/-- What a clock reading returns and how it leaves clock and tick. -/
theorem getSystemTimeWide_clock (k : Kernel) :
    (sceKernelGetSystemTimeWide k).1 = k.clock % 2 ^ 64 ∧
      (sceKernelGetSystemTimeWide k).2.clock = k.clock + k.tick ∧
      (sceKernelGetSystemTimeWide k).2.tick = k.tick :=
  ⟨rfl, rfl, rfl⟩

/-- On an ideal clock, with the mutex held by another thread, `lock(T)` for a budget of
`T` milliseconds below 1000000 returns false when the clock has advanced by exactly one
sleep of 1000000 microseconds, whatever `T` is. -/
theorem lock_positive_held_elapsed (self : LockFile) (T : Int) (t : ThreadId) (fuel : Nat)
    (w : World) (m : KMutex) (o : ThreadId) (hm : w.kernel.find w.lockMutex = some m)
    (ho : m.owner = some o) (hne : o ≠ t) (htick : w.kernel.tick = 0) (hpos : 0 < T)
    (hT : T < 1000000) :
    (self.lock T t (fuel + 2) w).1 = .returned false ∧
      (self.lock T t (fuel + 2) w).2.2.kernel.clock = w.kernel.clock + 1000000 := by
  have hT' : T.toNat < 1000000 := by omega
  obtain ⟨g1, g2, g3⟩ := getSystemTimeWide_clock w.kernel
  have e1 := pollLock_held_sleeps T (sceKernelGetSystemTimeWide w.kernel).1 t (fuel + 1)
    { lockMutex := w.lockMutex, kernel := (sceKernelGetSystemTimeWide w.kernel).2 } m o hm ho hne
    (by
      dsimp only
      rw [g1, g2, g3, htick]
      omega)
  have e2 := pollLock_held_gives_up T (sceKernelGetSystemTimeWide w.kernel).1 t fuel
    (afterRound { lockMutex := w.lockMutex, kernel := (sceKernelGetSystemTimeWide w.kernel).2 })
    m o hm ho hne
    (by
      rw [(afterRound_clock _).1, (afterRound_clock _).2]
      dsimp only
      rw [g1, g2, g3, htick]
      omega)
  have hl : self.lock T t (fuel + 2) w =
      ((pollLock T (sceKernelGetSystemTimeWide w.kernel).1 t (fuel + 2)
          { lockMutex := w.lockMutex, kernel := (sceKernelGetSystemTimeWide w.kernel).2 }).1,
        self,
        (pollLock T (sceKernelGetSystemTimeWide w.kernel).1 t (fuel + 2)
          { lockMutex := w.lockMutex, kernel := (sceKernelGetSystemTimeWide w.kernel).2 }).2) := by
    unfold LockFile.lock
    rw [if_neg (by omega), if_neg (by omega)]
  rw [hl, e1, e2]
  refine ⟨rfl, ?_⟩
  show (afterRound _).kernel.clock + (afterRound _).kernel.tick + (afterRound _).kernel.tick = _
  rw [(afterRound_clock _).1, (afterRound_clock _).2]
  dsimp only
  rw [g2, g3]
  omega

/-- A try-lock adds exactly one entry to the call record, whatever its result. -/
theorem tryLock_log (uid : SceUID) (n : Nat) (t : ThreadId) (k : Kernel) :
    (sceKernelTryLockMutex uid n t k).2.log = k.log ++ [.tryLockMutex uid n] := by
  unfold sceKernelTryLockMutex
  dsimp only
  split
  · rfl
  · split <;> rfl

/-- In every world `lock(0)` makes one try-lock call and no other service call. -/
theorem lock_zero_one_attempt (self : LockFile) (t : ThreadId) (fuel : Nat) (w : World) :
    (self.lock 0 t fuel w).2.2.kernel.log = w.kernel.log ++ [.tryLockMutex w.lockMutex 1] := by
  unfold LockFile.lock
  simp only [lt_irrefl, if_false, if_true]
  split <;> exact tryLock_log _ _ _ _

/-- When the mutex that `lockMutex` names is held by a thread other than the caller,
`lock(0)` returns false, the object and the mutex table are left as they were, exactly
one try-lock call is made and the sleep primitive is not called. -/
theorem lock_zero_of_held_by_other (self : LockFile) (t : ThreadId) (fuel : Nat)
    (w : World) (m : KMutex) (o : ThreadId) (hm : w.kernel.find w.lockMutex = some m)
    (ho : m.owner = some o) (hne : o ≠ t) :
    self.lock 0 t fuel w =
        (.returned false, self,
          { w with kernel := w.kernel.enter (.tryLockMutex w.lockMutex 1) }) ∧
      tryLockCalls (self.lock 0 t fuel w).2.2.kernel.log = tryLockCalls w.kernel.log + 1 ∧
      delayCalls (self.lock 0 t fuel w).2.2.kernel.log = delayCalls w.kernel.log := by
  have hl : self.lock 0 t fuel w =
      (.returned false, self,
        { w with kernel := w.kernel.enter (.tryLockMutex w.lockMutex 1) }) := by
    unfold LockFile.lock
    simp [tryLock_held_by_other w.lockMutex 1 t w.kernel m o hm ho hne, KernelError.code]
  refine ⟨hl, ?_, ?_⟩
  · rw [hl]
    simp only [Kernel.enter, tryLockCalls_append]
    rfl
  · rw [hl]
    simp only [Kernel.enter, delayCalls_append]
    rfl

/-- A successful acquisition keeps the identifier and leaves the caller as owner. -/
theorem acquire_ok_owner {m m1 : KMutex} {t : ThreadId} {n : Nat}
    (h : m.acquire t n = .ok m1) : m1.uid = m.uid ∧ m1.owner = some t := by
  unfold KMutex.acquire at h
  split at h
  · cases h
    exact ⟨rfl, rfl⟩
  · rename_i o ho
    split at h
    · rename_i hot
      split at h
      · cases h
        exact ⟨rfl, by rw [ho, hot]⟩
      · cases h
    · cases h

/-- After storing `m1` in place of the mutex an identifier names, the identifier names
`m1`. -/
theorem find_store (k : Kernel) (uid : SceUID) (m m1 : KMutex) (hm : k.find uid = some m)
    (hu : m1.uid = m.uid) : (k.store m1).find uid = some m1 := by
  have huid : m.uid = uid := by
    have := List.find?_some hm
    simpa using this
  unfold Kernel.find Kernel.store at *
  dsimp only
  generalize k.mutexes = l at hm
  induction l with
  | nil => simp at hm
  | cons x xs ih =>
    rw [List.find?_cons] at hm
    rw [List.map_cons, List.find?_cons]
    by_cases hx : x.uid = uid
    · have hb : (x.uid == uid) = true := by simpa using hx
      have hb1 : (x.uid == m1.uid) = true := by rw [hu, huid]; exact hb
      have hb2 : (m1.uid == uid) = true := by rw [hu, huid]; simp
      rw [hb1]
      simp only [if_true, hb2]
    · have hb : (x.uid == uid) = false := by simpa using hx
      have hb1 : (x.uid == m1.uid) = false := by rw [hu, huid]; exact hb
      rw [hb] at hm
      rw [hb1]
      simp only [Bool.false_eq_true, if_false, hb]
      exact ih hm

/-- Every status code of a failure is negative. -/
theorem code_neg (e : KernelError) : e.code < 0 := by
  cases e <;> decide

/-- A try-lock that reports success leaves the caller as owner of the mutex. -/
theorem tryLock_ok_owner (uid : SceUID) (n : Nat) (t : ThreadId) (k : Kernel)
    (h : (sceKernelTryLockMutex uid n t k).1 = 0) :
    ∃ m, (sceKernelTryLockMutex uid n t k).2.find uid = some m ∧ m.owner = some t := by
  unfold sceKernelTryLockMutex at h ⊢
  dsimp only at h ⊢
  cases hf : (k.enter (.tryLockMutex uid n)).find uid with
  | none =>
    simp [hf, KernelError.code] at h
  | some m =>
    simp only [hf] at h ⊢
    cases ha : m.acquire t n with
    | error e =>
      simp only [ha] at h
      have := code_neg e
      omega
    | ok m1 =>
      simp only [ha]
      exact ⟨m1, find_store _ uid m m1 hf (acquire_ok_owner ha).1, (acquire_ok_owner ha).2⟩

/-- A blocking lock that returns a non-negative status leaves the caller as owner of
the mutex. -/
theorem lockMutex_ok_owner (uid : SceUID) (n : Nat) (t : ThreadId) (k : Kernel) (r : Int)
    (h : (sceKernelLockMutex uid n t k).1 = some r) (hr : ¬ r < 0) :
    ∃ m, (sceKernelLockMutex uid n t k).2.find uid = some m ∧ m.owner = some t := by
  unfold sceKernelLockMutex at h ⊢
  dsimp only at h ⊢
  cases hf : (k.enter (.lockMutex uid n)).find uid with
  | none =>
    simp only [hf, Option.some.injEq] at h
    rw [← h] at hr
    exact absurd (code_neg _) hr
  | some m =>
    simp only [hf] at h ⊢
    cases ha : m.acquire t n with
    | error e =>
      simp only [ha] at h
      cases e <;> simp only [Option.some.injEq, reduceCtorEq] at h <;>
        exact absurd (h ▸ code_neg _) hr
    | ok m1 =>
      simp only [ha]
      exact ⟨m1, find_store _ uid m m1 hf (acquire_ok_owner ha).1, (acquire_ok_owner ha).2⟩

/-- When `lockFileMutex` returns, the calling thread owns the mutex `lockMutex` names. -/
theorem lockFileMutex_heldBy (t : ThreadId) (w : World)
    (h : (lockFileMutex t w).1 = .returned ()) : (lockFileMutex t w).2.heldBy t := by
  unfold lockFileMutex at h ⊢
  cases hl : sceKernelLockMutex w.lockMutex 1 t w.kernel with
  | mk ret k1 =>
    cases ret with
    | none => simp [hl] at h
    | some r =>
      simp only [hl] at h ⊢
      by_cases hr : r < 0
      · simp [hr] at h
      · simp only [hr, if_false]
        have := lockMutex_ok_owner w.lockMutex 1 t w.kernel r (by rw [hl]) hr
        rw [hl] at this
        exact this

/-- When the poll loop returns true, the calling thread owns the mutex `lockMutex`
names. -/
theorem pollLock_heldBy (T : Int) (start : Nat) (t : ThreadId) (fuel : Nat) (w : World)
    (h : (pollLock T start t fuel w).1 = .returned true) :
    (pollLock T start t fuel w).2.heldBy t := by
  induction fuel generalizing w with
  | zero => simp [pollLock] at h
  | succ fuel ih =>
    rw [pollLock] at h ⊢
    dsimp only at h ⊢
    by_cases h0 : (sceKernelTryLockMutex w.lockMutex 1 t w.kernel).1 = 0
    · rw [if_pos h0]
      exact tryLock_ok_owner w.lockMutex 1 t w.kernel h0
    · rw [if_neg h0] at h ⊢
      split at h
      · simp at h
      · rename_i hel
        rw [if_neg hel]
        exact ih _ h

/-- When `lock` returns true, the calling thread owns the mutex `lockMutex` names, and
`lockMutex` is the identifier it was before the call. -/
theorem lock_true_heldBy (self : LockFile) (timeout : Int) (t : ThreadId) (fuel : Nat)
    (w : World) (h : (self.lock timeout t fuel w).1 = .returned true) :
    (self.lock timeout t fuel w).2.2.heldBy t := by
  unfold LockFile.lock at h ⊢
  by_cases hneg : timeout < 0
  · rw [if_pos hneg] at h ⊢
    have key := lockFileMutex_heldBy t w
    cases hl : lockFileMutex t w with
    | mk o w1 =>
      rw [hl] at key
      cases o with
      | returned u => exact key rfl
      | threw e => simp [hl] at h
      | blocked => simp [hl] at h
      | unfinished => simp [hl] at h
  · rw [if_neg hneg] at h ⊢
    by_cases hz : timeout = 0
    · rw [if_pos hz] at h ⊢
      dsimp only at h ⊢
      by_cases h0 : (sceKernelTryLockMutex w.lockMutex 1 t w.kernel).1 = 0
      · rw [if_pos h0]
        exact tryLock_ok_owner w.lockMutex 1 t w.kernel h0
      · rw [if_neg h0] at h
        simp at h
    · rw [if_neg hz] at h ⊢
      exact pollLock_heldBy _ _ _ _ _ h

/-- A program that constructs an object for "save.lock" and move-assigns it to itself
is left with one object whose file name is empty and whose `m_handle` is null. -/
theorem self_move_clears_name :
    ((System.start bootKernel).run [.construct "save.lock" 1, .moveAssign 0 0]).objs =
      [{ m_filename := "", m_handle := none }] := by
  decide

/-! ## The claims -/

/-- C3, as amended: for every two objects A and B (whatever their names, all names
share the one mutex), every timeout and every two different threads, once
`A.lock(timeout)` has returned true on one thread, `B.lock(0)` called on the other
thread in the state that call left returns false; it leaves B and the mutex table as
they were, makes exactly one try-lock call and does not call the sleep primitive. -/
theorem lock_zero_after_lock_on_other_thread (A B : LockFile) (timeout : Int)
    (tA tB : ThreadId) (fuelA fuelB : Nat) (w : World) (hthreads : tA ≠ tB)
    (hA : (A.lock timeout tA fuelA w).1 = .returned true) :
    B.lock 0 tB fuelB (A.lock timeout tA fuelA w).2.2 =
        (.returned false, B,
          { (A.lock timeout tA fuelA w).2.2 with
            kernel := (A.lock timeout tA fuelA w).2.2.kernel.enter
              (.tryLockMutex (A.lock timeout tA fuelA w).2.2.lockMutex 1) }) ∧
      tryLockCalls (B.lock 0 tB fuelB (A.lock timeout tA fuelA w).2.2).2.2.kernel.log =
        tryLockCalls (A.lock timeout tA fuelA w).2.2.kernel.log + 1 ∧
      delayCalls (B.lock 0 tB fuelB (A.lock timeout tA fuelA w).2.2).2.2.kernel.log =
        delayCalls (A.lock timeout tA fuelA w).2.2.kernel.log := by
  obtain ⟨m, hm, ho⟩ := lock_true_heldBy A timeout tA fuelA w hA
  exact lock_zero_of_held_by_other B tB fuelB _ m tA hm ho hthreads

/-- Witness for C3 as amended: A and B constructed for "save.lock", `A.lock(-1)`
returned true on thread 1, `B.lock(0)` on thread 2. -/
theorem lock_zero_after_lock_on_other_thread_witness :
    ((1 : ThreadId) ≠ 2 ∧ (saveLock.lock (-1) 1 0 worldAB).1 = .returned true) ∧
      saveLock.lock 0 2 0 (saveLock.lock (-1) 1 0 worldAB).2.2 =
        (.returned false, saveLock,
          { (saveLock.lock (-1) 1 0 worldAB).2.2 with
            kernel := (saveLock.lock (-1) 1 0 worldAB).2.2.kernel.enter
              (.tryLockMutex (saveLock.lock (-1) 1 0 worldAB).2.2.lockMutex 1) }) ∧
      tryLockCalls (saveLock.lock 0 2 0 (saveLock.lock (-1) 1 0 worldAB).2.2).2.2.kernel.log =
        tryLockCalls (saveLock.lock (-1) 1 0 worldAB).2.2.kernel.log + 1 ∧
      delayCalls (saveLock.lock 0 2 0 (saveLock.lock (-1) 1 0 worldAB).2.2).2.2.kernel.log =
        delayCalls (saveLock.lock (-1) 1 0 worldAB).2.2.kernel.log :=
  ⟨⟨by decide, by decide⟩,
    lock_zero_after_lock_on_other_thread saveLock saveLock (-1) 1 2 0 0 worldAB (by decide)
      (by decide)⟩

/-- C3, counterexample: A and B are constructed for the same name, `A.lock(-1)`
returns true on thread 1, and `B.lock(0)` on the same thread returns true as well: the
mutex was created recursive. -/
theorem lock_zero_same_thread_succeeds :
    LockFile.construct "save.lock" 1 (World.start bootKernel) = (.returned saveLock, worldA) ∧
      LockFile.construct "save.lock" 1 worldA = (.returned saveLock, worldAB) ∧
      saveLock.lock (-1) 1 0 worldAB = (.returned true, saveLock, worldABLocked) ∧
      (saveLock.lock 0 1 0 worldABLocked).1 = .returned true ∧
      (saveLock.lock 0 1 0 worldABLocked).1 ≠ .returned false := by
  decide


/-- C1, evaluated: after `LockFile A("save.lock")` each of `A.lock(-1)`, `A.lock(0)`
and `A.lock(1000)` returns true and leaves `A.isLocked()` false; the object that
`acquireLock("save.lock", 0)` returns reports `isLocked()` false too. -/
theorem lock_true_isLocked_false :
    LockFile.construct "save.lock" 1 (World.start bootKernel) = (.returned saveLock, worldA) ∧
      (saveLock.lock (-1) 1 0 worldA).1 = .returned true ∧
      (saveLock.lock (-1) 1 0 worldA).2.1.isLocked = false ∧
      (saveLock.lock 0 1 0 worldA).1 = .returned true ∧
      (saveLock.lock 0 1 0 worldA).2.1.isLocked = false ∧
      (saveLock.lock 1000 1 1 worldA).1 = .returned true ∧
      (saveLock.lock 1000 1 1 worldA).2.1.isLocked = false ∧
      (LockFile.acquireLock "save.lock" 0 1 0 (World.start bootKernel)).1 =
        .returned (some saveLock) ∧
      saveLock.isLocked = false := by
  decide

/-- C2, evaluated: A and B are constructed for "save.lock", `A.lock(-1)` returns true
on thread 1, `A.unlock()` returns and leaves `A.isLocked()` false, but it makes no
service call at all (the world is unchanged, the mutex stays owned by thread 1), and
`B.lock(0)` on thread 2 returns false. -/
theorem unlock_keeps_mutex_held :
    LockFile.construct "save.lock" 1 (World.start bootKernel) = (.returned saveLock, worldA) ∧
      LockFile.construct "save.lock" 2 worldA = (.returned saveLock, worldAB) ∧
      saveLock.lock (-1) 1 0 worldAB = (.returned true, saveLock, worldABLocked) ∧
      saveLock.unlock worldABLocked = (.returned (), saveLock, worldABLocked) ∧
      saveLock.isLocked = false ∧
      unlockMutexCalls worldABLocked.kernel.log = 0 ∧
      worldABLocked.kernel.find worldABLocked.lockMutex =
        some { uid := 2, name := "LockMutex", recursive := true, owner := some 1, count := 1 } ∧
      (saveLock.lock 0 2 0 worldABLocked).1 = .returned false := by
  decide

/-- C4, evaluated: the first construction stores identifier 1 in `lockMutex` and
`A.lock(-1)` locks mutex 1; constructing B stores the new identifier 2, mutex 1 stays
owned by thread 1, and a following `A.lock(0)` on thread 2 operates on mutex 2 and
returns true. -/
theorem construct_replaces_lockMutex :
    worldA.lockMutex = 1 ∧
      (saveLock.lock (-1) 1 0 worldA).1 = .returned true ∧
      worldALocked.kernel.log = [.createMutex "LockMutex" 2 0, .lockMutex 1 1] ∧
      (LockFile.construct "save.lock" 2 worldALocked).1 = .returned saveLock ∧
      worldALockedB.lockMutex = 2 ∧
      worldALockedB.lockMutex ≠ worldA.lockMutex ∧
      worldALockedB.kernel.find 1 =
        some { uid := 1, name := "LockMutex", recursive := true, owner := some 1, count := 1 } ∧
      (saveLock.lock 0 2 0 worldALockedB).1 = .returned true ∧
      (saveLock.lock 0 2 0 worldALockedB).2.2.kernel.log =
        worldALockedB.kernel.log ++ [.tryLockMutex 2 1] := by
  decide

/-- C5: in every state a program reaches from its start by constructing objects
(directly or through `acquireLock`) and applying lock, unlock, move assignment, move
construction and destruction in any order, at most one object bound to a name `R`
reports `isLocked()`. -/
theorem at_most_one_isLocked (k : Kernel) (ops : List Op) (R : String) :
    ((System.start k).run ops).lockedOn R ≤ 1 := by
  have h0 : (System.start k).allNull := by
    intro h hh
    simp [System.start] at hh
  rw [lockedOn_of_allNull _ R (run_allNull ops _ h0)]
  exact Nat.zero_le 1

/-- C6, evaluated: with the mutex held by thread 1 throughout, `lock(5000)` on thread 2
returns false after 1000000 microseconds of an ideal clock, which is less than the
5000 milliseconds asked for; on a platform whose calls take a microsecond, `lock(1)`
returns false after 3 microseconds, less than one millisecond. -/
theorem lock_timeout_returns_early :
    (saveLock.lock 5000 2 2 worldABLocked).1 = .returned false ∧
      (saveLock.lock 5000 2 2 worldABLocked).2.2.kernel.clock - worldABLocked.kernel.clock =
        1000000 ∧
      1000000 < 5000 * 1000 ∧
      delayCalls (saveLock.lock 5000 2 2 worldABLocked).2.2.kernel.log = 1 ∧
      (saveLock.lock 1 2 1 worldTicking).1 = .returned false ∧
      (saveLock.lock 1 2 1 worldTicking).2.2.kernel.clock - worldTicking.kernel.clock = 3 ∧
      3 < 1 * 1000 := by
  decide

/-- C7, evaluated: after the construction of a second object failed, `lockMutex`
holds the negative status of the creation; the try-lock on it reports
`unknownMutexId`, not `failedToOwn`, and yet `lock(0)` returns false without an
exception, and `lock(1)` returns false after two try-lock calls (it retried). -/
theorem lock_false_on_other_error :
    (LockFile.construct "save.lock" 1 (World.start tightKernel)).1 = .returned saveLock ∧
      (LockFile.construct "save.lock" 2
          (LockFile.construct "save.lock" 1 (World.start tightKernel)).2).1 =
        .threw ⟨"Failed to create mutex: ", KernelError.outOfResources.code⟩ ∧
      (sceKernelTryLockMutex worldTight.lockMutex 1 1 worldTight.kernel).1 =
        KernelError.unknownMutexId.code ∧
      KernelError.unknownMutexId.code ≠ KernelError.failedToOwn.code ∧
      (saveLock.lock 0 1 0 worldTight).1 = .returned false ∧
      (saveLock.lock 1 1 2 worldTight).1 = .returned false ∧
      tryLockCalls (saveLock.lock 1 1 2 worldTight).2.2.kernel.log =
        tryLockCalls worldTight.kernel.log + 2 := by
  decide


/-- C8: for every file name, timeout, thread and world, if `sceKernelCreateMutex`
returns a negative value then `acquireLock` ends with the StarException "Failed to
create mutex: " followed by that value, it returns neither an empty result nor an
object, and the creation request is the only service call it makes (no lock or
try-lock call). -/
theorem acquireLock_throws_on_create_failure (filename : String) (lockTimeout : Int)
    (t : ThreadId) (fuel : Nat) (w : World)
    (hfail : (sceKernelCreateMutex "LockMutex" SCE_KERNEL_MUTEX_ATTR_RECURSIVE 0 t w.kernel).1
      < 0) :
    (LockFile.acquireLock filename lockTimeout t fuel w).1 =
        .threw ⟨"Failed to create mutex: ",
          (sceKernelCreateMutex "LockMutex" SCE_KERNEL_MUTEX_ATTR_RECURSIVE 0 t w.kernel).1⟩ ∧
      (∀ r, (LockFile.acquireLock filename lockTimeout t fuel w).1 ≠ .returned r) ∧
      (LockFile.acquireLock filename lockTimeout t fuel w).2.kernel.log =
        w.kernel.log ++ [.createMutex "LockMutex" SCE_KERNEL_MUTEX_ATTR_RECURSIVE 0] := by
  have hi : initLockMutex t w =
      (.threw ⟨"Failed to create mutex: ",
          (sceKernelCreateMutex "LockMutex" SCE_KERNEL_MUTEX_ATTR_RECURSIVE 0 t w.kernel).1⟩,
        { lockMutex :=
            (sceKernelCreateMutex "LockMutex" SCE_KERNEL_MUTEX_ATTR_RECURSIVE 0 t w.kernel).1,
          kernel :=
            (sceKernelCreateMutex "LockMutex" SCE_KERNEL_MUTEX_ATTR_RECURSIVE 0 t w.kernel).2 }) := by
    unfold initLockMutex
    simp only [if_pos hfail]
  have ha : LockFile.acquireLock filename lockTimeout t fuel w =
      (.threw ⟨"Failed to create mutex: ",
          (sceKernelCreateMutex "LockMutex" SCE_KERNEL_MUTEX_ATTR_RECURSIVE 0 t w.kernel).1⟩,
        { lockMutex :=
            (sceKernelCreateMutex "LockMutex" SCE_KERNEL_MUTEX_ATTR_RECURSIVE 0 t w.kernel).1,
          kernel :=
            (sceKernelCreateMutex "LockMutex" SCE_KERNEL_MUTEX_ATTR_RECURSIVE 0 t w.kernel).2 }) := by
    unfold LockFile.acquireLock LockFile.construct
    rw [hi]
  rw [ha]
  refine ⟨rfl, ?_, ?_⟩
  · intro r hr
    cases hr
  · exact create_log _ _ _ _ _

/-- Witness for C8: on a platform without room for a mutex, `acquireLock("save.lock",
-1)` throws. -/
theorem acquireLock_throws_on_create_failure_witness :
    (LockFile.acquireLock "save.lock" (-1) 1 0 (World.start fullKernel)).1 =
        .threw ⟨"Failed to create mutex: ",
          (sceKernelCreateMutex "LockMutex" SCE_KERNEL_MUTEX_ATTR_RECURSIVE 0 1
            (World.start fullKernel).kernel).1⟩ ∧
      (∀ r, (LockFile.acquireLock "save.lock" (-1) 1 0 (World.start fullKernel)).1 ≠
        .returned r) ∧
      (LockFile.acquireLock "save.lock" (-1) 1 0 (World.start fullKernel)).2.kernel.log =
        (World.start fullKernel).kernel.log ++
          [.createMutex "LockMutex" SCE_KERNEL_MUTEX_ATTR_RECURSIVE 0] :=
  acquireLock_throws_on_create_failure "save.lock" (-1) 1 0 (World.start fullKernel)
    (by decide)

/-- C9: for every object and world, `unlock()` returns without an exception and
leaves `isLocked()` false; a second `unlock()` changes neither the object nor the
world (no further unlink or close), and on an object whose `m_handle` is null
`unlock()` changes nothing: object (file name included) and world (call record
included) are as before. -/
theorem unlock_idempotent_total (self : LockFile) (w : World) :
    (self.unlock w).1 = .returned () ∧
      (self.unlock w).2.1.isLocked = false ∧
      (self.unlock w).2.1.unlock (self.unlock w).2.2 = self.unlock w ∧
      ({ self with m_handle := none } : LockFile).unlock w =
        (.returned (), { self with m_handle := none }, w) := by
  refine ⟨?_, ?_, ?_, rfl⟩
  · unfold LockFile.unlock
    split <;> rfl
  · simp [LockFile.isLocked, unlock_owns_nothing]
  · unfold LockFile.unlock
    cases h : self.m_handle <;> simp [h]

/-- C10: for every source object whose `m_handle` is set, after move assignment and
after move construction the destination reports `isLocked()` and holds the source's
`m_handle` and `m_filename`, the source reports `isLocked()` false, and destroying or
unlocking the moved-from source returns with the world unchanged (no unlink, no
close). -/
theorem move_transfers_ownership (self lockFile : LockFile) (fd : Int)
    (hfd : lockFile.m_handle = some fd) :
    (self.moveAssign lockFile).1.isLocked = true ∧
      (self.moveAssign lockFile).1.m_handle = some fd ∧
      (self.moveAssign lockFile).1.m_filename = lockFile.m_filename ∧
      (self.moveAssign lockFile).2.isLocked = false ∧
      (∀ w, (self.moveAssign lockFile).2.destroy w =
        (.returned (), (self.moveAssign lockFile).2, w)) ∧
      (∀ w, (self.moveAssign lockFile).2.unlock w =
        (.returned (), (self.moveAssign lockFile).2, w)) ∧
      (LockFile.moveConstruct lockFile).1.isLocked = true ∧
      (LockFile.moveConstruct lockFile).1.m_handle = some fd ∧
      (LockFile.moveConstruct lockFile).1.m_filename = lockFile.m_filename ∧
      (LockFile.moveConstruct lockFile).2.isLocked = false ∧
      (∀ w, (LockFile.moveConstruct lockFile).2.destroy w =
        (.returned (), (LockFile.moveConstruct lockFile).2, w)) := by
  simp [LockFile.moveConstruct, LockFile.moveAssign, LockFile.isLocked, LockFile.destroy,
    LockFile.unlock, hfd]

/-- Witness for C10: an object that owns descriptor 3 is moved into an unlocked one. -/
theorem move_transfers_ownership_witness :
    (saveLock.moveAssign heldLock).1.isLocked = true ∧
      (saveLock.moveAssign heldLock).1.m_handle = some 3 ∧
      (saveLock.moveAssign heldLock).1.m_filename = heldLock.m_filename ∧
      (saveLock.moveAssign heldLock).2.isLocked = false ∧
      (∀ w, (saveLock.moveAssign heldLock).2.destroy w =
        (.returned (), (saveLock.moveAssign heldLock).2, w)) ∧
      (∀ w, (saveLock.moveAssign heldLock).2.unlock w =
        (.returned (), (saveLock.moveAssign heldLock).2, w)) ∧
      (LockFile.moveConstruct heldLock).1.isLocked = true ∧
      (LockFile.moveConstruct heldLock).1.m_handle = some 3 ∧
      (LockFile.moveConstruct heldLock).1.m_filename = heldLock.m_filename ∧
      (LockFile.moveConstruct heldLock).2.isLocked = false ∧
      (∀ w, (LockFile.moveConstruct heldLock).2.destroy w =
        (.returned (), (LockFile.moveConstruct heldLock).2, w)) :=
  move_transfers_ownership saveLock heldLock 3 rfl

end Star
